import Mathlib

/-! Shallow embedding of the Rust CRUD service (src/main.rs): a hand-parsed
HTTP front end dispatching five handlers over a users table.  Strings are
modelled as `List Char`; the postgres client and serde codecs are modelled by
an explicit environment `Env` (row store, connection outcome, codec functions,
per-statement execution outcomes).  A handler returns
`Option ((status, body) × rows)`: `some` is the HTTP response written back
together with the table contents afterwards, `none` is a panic reached through
`.unwrap()` on an `Err`. -/

namespace RustCrud

/-- Characters of a string literal. -/
def strL (s : String) : List Char := s.data

/-- HTTP/1.1 200 status line and headers (constant `OK_RESPONSE`). -/
def OK_RESPONSE : List Char := strL ("HTTP/1.1 200 OK\r\nContent-Type: application/json\r\n\r\n")

/-- HTTP/1.1 404 status line (constant `NOT_FOUND`). -/
def NOT_FOUND : List Char := strL ("HTTP/1.1 404 NOT FOUND\r\n\r\n")

/-- HTTP/1.1 500 status line (constant `INTERNAL_SERVER_ERROR`). -/
def INTERNAL_SERVER_ERROR : List Char := strL ("HTTP/1.1 500 INTERNAL SERVER ERROR\r\n\r\n")

/-- The `User` struct: optional id plus name and email. -/
structure User where
  id : Option Int
  name : List Char
  email : List Char
deriving DecidableEq

/-- A stored row of the `users` table: id (SERIAL, non-null), name, email. -/
structure Row where
  id : Int
  name : List Char
  email : List Char
deriving DecidableEq

/-- The world a handler runs against: the table contents, the outcome of
`Client::connect`, the serde codecs, the id the storage engine would assign to
an inserted row, and whether each SQL statement executes without error when
reached. -/
structure Env where
  rows : List Row
  connectOk : Bool
  nextId : Int
  decodeUser : List Char → Option User
  encodeUser : User → Option (List Char)
  encodeUsers : List User → Option (List Char)
  insertExecOk : Bool
  updateExecOk : Bool
  deleteExecOk : Bool
  selectAllOk : Bool
  selectOneOk : Bool

/-- Prepend a character to the first piece of a split (helper shared by the
two split functions; mirrors extending the current segment of Rust's
`str::split` scan by one character). -/
def consHead (c : Char) : List (List Char) → List (List Char)
  | [] => [[c]]
  | s :: ss => (c :: s) :: ss

/-- Rust `str::split` on a one-character pattern: left-to-right scan, a empty
input yields one empty piece, adjacent separators yield empty pieces. -/
def splitChar (sep : Char) : List Char → List (List Char)
  | [] => [[]]
  | c :: rest =>
      if c = sep then [] :: splitChar sep rest
      else consHead c (splitChar sep rest)

/-- Rust `str::split` on the four-character pattern `"\r\n\r\n"`:
left-to-right scan consuming non-overlapping leftmost occurrences. -/
def splitCRLF2 : List Char → List (List Char)
  | a :: b :: c :: d :: rest =>
      if a = '\r' ∧ b = '\n' ∧ c = '\r' ∧ d = '\n' then [] :: splitCRLF2 rest
      else consHead a (splitCRLF2 (b :: c :: d :: rest))
  | a :: rest => consHead a (splitCRLF2 rest)
  | [] => [[]]

/-- Whether the buffer contains an occurrence of `"\r\n\r\n"`. -/
def containsCRLF2 : List Char → Bool
  | a :: b :: c :: d :: rest =>
      if a = '\r' ∧ b = '\n' ∧ c = '\r' ∧ d = '\n' then true
      else containsCRLF2 (b :: c :: d :: rest)
  | _ => false

/-- `get_id`: `request.split("/").nth(2).unwrap_or_default()` — the third
`/`-delimited piece of the whole raw request, or empty. -/
def get_id (request : List Char) : List Char :=
  (splitChar '/' request).getD 2 []

/-- The string handed to serde in `get_user_request_body`:
`request.split("\r\n\r\n").last().unwrap_or_default()`. -/
def lastSegBody (request : List Char) : List Char :=
  ((splitCRLF2 request).getLast?).getD []

/-- `get_user_request_body`: deserialize the last blank-line-separated segment
of the request as a `User` (`serde_json::from_str`, modelled by the
environment's decoder). -/
def get_user_request_body (env : Env) (request : List Char) : Option User :=
  env.decodeUser (lastSegBody request)

/-- Accumulate the value of a decimal digit string; `none` on the first
non-digit character (core of Rust's `i32::from_str`). -/
def digitsValAux : List Char → Nat → Option Nat
  | [], acc => some acc
  | c :: rest, acc =>
      if c.isDigit then digitsValAux rest (acc * 10 + (c.toNat - 48)) else none

/-- Value of a non-empty all-digit string; `none` when empty or when any
character is not an ASCII digit. -/
def digitsVal : List Char → Option Nat
  | [] => none
  | c :: rest => digitsValAux (c :: rest) 0

/-- Largest i32 value. -/
def i32Max : Nat := 2147483647

/-- Rust `str::parse::<i32>`: optional sign, then one or more ASCII digits,
nothing else, and the value must fit in an `i32`. -/
def parseI32 (s : List Char) : Option Int :=
  match s with
  | [] => none
  | c :: rest =>
      if c = '+' then
        (digitsVal rest).bind (fun n => if n ≤ i32Max then some (n : Int) else none)
      else if c = '-' then
        (digitsVal rest).bind (fun n => if n ≤ i32Max + 1 then some (-(n : Int)) else none)
      else
        (digitsVal (c :: rest)).bind (fun n => if n ≤ i32Max then some (n : Int) else none)

/-- `Client::connect(db_url, NoTls)`: `some ()` when the connection opens. -/
def connectDb (env : Env) : Option Unit :=
  if env.connectOk then some () else none

/-- `client.query_one("SELECT * FROM users WHERE id = $1", ...)`: `some row`
exactly when the statement runs without error and exactly one row matches. -/
def query_one (env : Env) (id : Int) : Option Row :=
  if env.selectOneOk then
    match env.rows.filter (fun r => decide (r.id = id)) with
    | [r] => some r
    | _ => none
  else none

/-- `handle_post_request`: decode the body and connect; on both succeeding run
the INSERT (panicking via `.unwrap()` if it errs) and answer 200
"User created"; otherwise answer 500 "Error occurred". -/
def handle_post_request (env : Env) (request : List Char) :
    Option ((List Char × List Char) × List Row) :=
  match get_user_request_body env request, connectDb env with
  | some user, some _ =>
      if env.insertExecOk then
        some ((OK_RESPONSE, strL ("User created")),
          env.rows ++ [{ id := env.nextId, name := user.name, email := user.email }])
      else none
  | _, _ => some ((INTERNAL_SERVER_ERROR, strL ("Error occurred")), env.rows)

/-- `handle_get_request`: parse the id and connect; on success `query_one`,
serializing the row positionally into a `User` on 200 (panicking if
`serde_json::to_string` errs), 404 "User not found" when `query_one` errs,
500 "Invalid ID format" when the id does not parse, 500 "Database connection
error" when the connection fails. -/
def handle_get_request (env : Env) (request : List Char) :
    Option ((List Char × List Char) × List Row) :=
  match parseI32 (get_id request), connectDb env with
  | some id, some _ =>
      match query_one env id with
      | some row =>
          match env.encodeUser { id := some row.id, name := row.name, email := row.email } with
          | some s => some ((OK_RESPONSE, s), env.rows)
          | none => none
      | none => some ((NOT_FOUND, strL ("User not found")), env.rows)
  | none, _ => some ((INTERNAL_SERVER_ERROR, strL ("Invalid ID format")), env.rows)
  | some _, none =>
      some ((INTERNAL_SERVER_ERROR, strL ("Database connection error")), env.rows)

/-- `handle_get_all_requests`: connect, run `SELECT * FROM users` (panicking
via `.unwrap()` if the query errs), serialize all rows (panicking if encoding
errs) into a 200; a failed connection answers 500 "Error occurred". -/
def handle_get_all_requests (env : Env) (_request : List Char) :
    Option ((List Char × List Char) × List Row) :=
  match connectDb env with
  | some _ =>
      if env.selectAllOk then
        match env.encodeUsers
            (env.rows.map (fun r => { id := some r.id, name := r.name, email := r.email })) with
        | some s => some ((OK_RESPONSE, s), env.rows)
        | none => none
      else none
  | none => some ((INTERNAL_SERVER_ERROR, strL ("Error occurred")), env.rows)

/-- `handle_put_request`: parse the id, decode the body, connect; on all three
succeeding run the UPDATE (panicking via `.unwrap()` if it errs) and answer
200 "User updated" regardless of how many rows matched; otherwise 500
"Error occurred". -/
def handle_put_request (env : Env) (request : List Char) :
    Option ((List Char × List Char) × List Row) :=
  match parseI32 (get_id request), get_user_request_body env request, connectDb env with
  | some id, some user, some _ =>
      if env.updateExecOk then
        some ((OK_RESPONSE, strL ("User updated")),
          env.rows.map (fun r =>
            if r.id = id then { id := r.id, name := user.name, email := user.email } else r))
      else none
  | _, _, _ => some ((INTERNAL_SERVER_ERROR, strL ("Error occurred")), env.rows)

/-- `handle_delete_request`: parse the id and connect; on success run the
DELETE (panicking via `.unwrap()` if it errs), answering 404 "User not found"
when it affected zero rows and 200 "User deleted" otherwise; otherwise 500
"Error occurred". -/
def handle_delete_request (env : Env) (request : List Char) :
    Option ((List Char × List Char) × List Row) :=
  match parseI32 (get_id request), connectDb env with
  | some id, some _ =>
      if env.deleteExecOk then
        if (env.rows.filter (fun r => decide (r.id = id))).length = 0 then
          some ((NOT_FOUND, strL ("User not found")),
            env.rows.filter (fun r => decide (¬ r.id = id)))
        else
          some ((OK_RESPONSE, strL ("User deleted")),
            env.rows.filter (fun r => decide (¬ r.id = id)))
      else none
  | _, _ => some ((INTERNAL_SERVER_ERROR, strL ("Error occurred")), env.rows)

/-- `handle_client`'s dispatch: the five `starts_with` guards in source order,
else 404 "Not found". -/
def handle_client (env : Env) (request : List Char) :
    Option ((List Char × List Char) × List Row) :=
  if (strL ("POST /users")).isPrefixOf request then handle_post_request env request
  else if (strL ("GET /users")).isPrefixOf request then handle_get_request env request
  else if (strL ("GET /users/all")).isPrefixOf request then handle_get_all_requests env request
  else if (strL ("PUT /users")).isPrefixOf request then handle_put_request env request
  else if (strL ("DELETE /users")).isPrefixOf request then handle_delete_request env request
  else some ((NOT_FOUND, strL ("Not found")), env.rows)

/-- Modelled from the spec words (§4.1), for comparison with the code's
`lastSegBody`: the substring of the buffer after the FIRST blank line, and the
empty string when no blank line is present. -/
def bodyAfterFirstBlankLineSpec : List Char → List Char
  | a :: b :: c :: d :: rest =>
      if a = '\r' ∧ b = '\n' ∧ c = '\r' ∧ d = '\n' then rest
      else bodyAfterFirstBlankLineSpec (b :: c :: d :: rest)
  | _ :: _ => []
  | [] => []

/-- A concrete environment for evaluating the handlers at concrete inputs:
one stored user with id 5, a working connection and working statements, a
decoder that rejects every body and an encoder that answers the user's name
(for a single user) or a fixed array text (for a list). -/
def envW : Env where
  rows := [{ id := 5, name := strL ("Ann"), email := strL ("ann@x.com") }]
  connectOk := true
  nextId := 6
  decodeUser := fun _ => none
  encodeUser := fun u => some u.name
  encodeUsers := fun _ => some (strL ("[ARRAY]"))
  insertExecOk := true
  updateExecOk := true
  deleteExecOk := true
  selectAllOk := true
  selectOneOk := true

/-- `envW` with the INSERT statement failing to execute while body decoding
succeeds (the decoder accepts every body) and the connection succeeds. -/
def envExecFail : Env where
  rows := []
  connectOk := true
  nextId := 1
  decodeUser := fun _ => some { id := none, name := strL ("Ann"), email := strL ("ann@x.com") }
  encodeUser := fun u => some u.name
  encodeUsers := fun _ => some (strL ("[ARRAY]"))
  insertExecOk := false
  updateExecOk := true
  deleteExecOk := true
  selectAllOk := true
  selectOneOk := true

/-- `envW` with the database connection failing. -/
def envNoConn : Env :=
  { envW with connectOk := false }

/-- `envW` with a decoder that accepts every body as a fixed user. -/
def envDecode : Env :=
  { envW with decodeUser := fun _ => some { id := none, name := strL ("Bob"), email := strL ("bob@x.com") } }

/-! Lemmas about the split and parse helpers. -/

theorem consHead_ne_nil (c : Char) (l : List (List Char)) : consHead c l ≠ [] := by
  cases l <;> simp [consHead]

theorem splitChar_ne_nil (sep : Char) : (s : List Char) → splitChar sep s ≠ []
  | [] => by simp [splitChar]
  | c :: rest => by
      by_cases h : c = sep
      · simp [splitChar, h]
      · simp only [splitChar, if_neg h]
        exact consHead_ne_nil c _

theorem splitChar_no_sep (sep : Char) :
    (a : List Char) → sep ∉ a → splitChar sep a = [a]
  | [], _ => rfl
  | c :: rest, h => by
      have hc : ¬ c = sep := fun hcs => h (hcs ▸ List.mem_cons_self c rest)
      have hr : sep ∉ rest := fun hm => h (List.mem_cons_of_mem c hm)
      simp only [splitChar, if_neg hc, splitChar_no_sep sep rest hr, consHead]

theorem splitChar_append (sep : Char) :
    (a : List Char) → (b : List Char) → sep ∉ a →
    splitChar sep (a ++ sep :: b) = a :: splitChar sep b
  | [], b, _ => by simp [splitChar]
  | c :: rest, b, h => by
      have hc : ¬ c = sep := fun hcs => h (hcs ▸ List.mem_cons_self c rest)
      have hr : sep ∉ rest := fun hm => h (List.mem_cons_of_mem c hm)
      have ih := splitChar_append sep rest b hr
      simp only [List.cons_append, splitChar, if_neg hc, List.append_eq, ih, consHead]

theorem digitsValAux_nondigit {x : Char} (hx : ¬ x.isDigit) :
    (a : List Char) → (b : List Char) → (acc : Nat) →
    digitsValAux (a ++ x :: b) acc = none
  | [], b, acc => by simp [digitsValAux, hx]
  | c :: rest, b, acc => by
      by_cases hc : c.isDigit
      · simp only [List.cons_append, digitsValAux, if_pos hc]
        exact digitsValAux_nondigit hx rest b _
      · simp [digitsValAux, hc]

theorem digitsVal_space (a b : List Char) : digitsVal (a ++ ' ' :: b) = none := by
  have hsp : ¬ (' ' : Char).isDigit := by decide
  cases a with
  | nil => simpa [digitsVal] using digitsValAux_nondigit hsp [] b 0
  | cons c rest =>
      simpa [digitsVal] using digitsValAux_nondigit hsp (c :: rest) b 0

theorem parseI32_space (a b : List Char) : parseI32 (a ++ ' ' :: b) = none := by
  cases a with
  | nil =>
      simp [parseI32, digitsVal, digitsValAux]
  | cons c rest =>
      by_cases hp : c = '+'
      · simp [parseI32, hp, digitsVal_space rest b]
      · by_cases hm : c = '-'
        · simp [parseI32, hp, hm, digitsVal_space rest b]
        · have : digitsVal (c :: (rest ++ ' ' :: b)) = none := by
            have := digitsVal_space (c :: rest) b
            simpa using this
          simp [parseI32, hp, hm, this]

theorem splitCRLF2_ne_nil : (s : List Char) → splitCRLF2 s ≠ []
  | [] => by simp [splitCRLF2]
  | [a] => by simpa [splitCRLF2] using consHead_ne_nil a _
  | [a, b] => by simpa [splitCRLF2] using consHead_ne_nil a _
  | [a, b, c] => by simpa [splitCRLF2] using consHead_ne_nil a _
  | a :: b :: c :: d :: rest => by
      by_cases h : a = '\r' ∧ b = '\n' ∧ c = '\r' ∧ d = '\n'
      · simp [splitCRLF2, h]
      · simp only [splitCRLF2, if_neg h]
        exact consHead_ne_nil a _

theorem splitCRLF2_single :
    (s : List Char) → containsCRLF2 s = false → splitCRLF2 s = [s]
  | [], _ => rfl
  | [a], _ => rfl
  | [a, b], _ => rfl
  | [a, b, c], _ => rfl
  | a :: b :: c :: d :: rest, h => by
      by_cases hb : a = '\r' ∧ b = '\n' ∧ c = '\r' ∧ d = '\n'
      · rw [containsCRLF2, if_pos hb] at h
        exact absurd h (by simp)
      · rw [containsCRLF2, if_neg hb] at h
        rw [splitCRLF2, if_neg hb, splitCRLF2_single (b :: c :: d :: rest) h]
        rfl

theorem getLastD_cons_of_ne_nil (x : List Char) (l : List (List Char)) (h : l ≠ []) :
    ((x :: l).getLast?).getD [] = (l.getLast?).getD [] := by
  cases l with
  | nil => exact absurd rfl h
  | cons y l2 => simp [List.getLast?_cons_cons]

theorem length_consHead (a : Char) (l : List (List Char)) (h : l ≠ []) :
    (consHead a l).length = l.length := by
  cases l with
  | nil => exact absurd rfl h
  | cons y l2 => simp [consHead]

theorem lastSeg_eq_self (s : List Char) (h : containsCRLF2 s = false) :
    lastSegBody s = s := by
  unfold lastSegBody
  rw [splitCRLF2_single s h]
  rfl

theorem splitCRLF2_len2 :
    (s : List Char) → containsCRLF2 s = true → 2 ≤ (splitCRLF2 s).length
  | [], h => by simp [containsCRLF2] at h
  | [a], h => by simp [containsCRLF2] at h
  | [a, b], h => by simp [containsCRLF2] at h
  | [a, b, c], h => by simp [containsCRLF2] at h
  | a :: b :: c :: d :: rest, h => by
      by_cases hb : a = '\r' ∧ b = '\n' ∧ c = '\r' ∧ d = '\n'
      · rw [splitCRLF2, if_pos hb]
        have := List.length_pos.mpr (splitCRLF2_ne_nil rest)
        simpa using this
      · rw [containsCRLF2, if_neg hb] at h
        rw [splitCRLF2, if_neg hb,
          length_consHead a _ (splitCRLF2_ne_nil (b :: c :: d :: rest))]
        exact splitCRLF2_len2 (b :: c :: d :: rest) h

theorem lastSeg_props : (s : List Char) →
    (∃ t, s = t ++ lastSegBody s) ∧
    containsCRLF2 (lastSegBody s) = false ∧
    (containsCRLF2 s = true →
      ∃ t, s = t ++ '\r' :: '\n' :: '\r' :: '\n' :: lastSegBody s)
  | [] => by
      refine ⟨⟨[], by simp [lastSeg_eq_self [] rfl]⟩, ?_, ?_⟩
      · rw [lastSeg_eq_self [] rfl]; rfl
      · intro h; simp [containsCRLF2] at h
  | [a] => by
      refine ⟨⟨[], by simp [lastSeg_eq_self [a] rfl]⟩, ?_, ?_⟩
      · rw [lastSeg_eq_self [a] rfl]; rfl
      · intro h; simp [containsCRLF2] at h
  | [a, b] => by
      refine ⟨⟨[], by simp [lastSeg_eq_self [a, b] rfl]⟩, ?_, ?_⟩
      · rw [lastSeg_eq_self [a, b] rfl]; rfl
      · intro h; simp [containsCRLF2] at h
  | [a, b, c] => by
      refine ⟨⟨[], by simp [lastSeg_eq_self [a, b, c] rfl]⟩, ?_, ?_⟩
      · rw [lastSeg_eq_self [a, b, c] rfl]; rfl
      · intro h; simp [containsCRLF2] at h
  | a :: b :: c :: d :: rest => by
      by_cases hb : a = '\r' ∧ b = '\n' ∧ c = '\r' ∧ d = '\n'
      · obtain ⟨rfl, rfl, rfl, rfl⟩ := hb
        have hsplit : splitCRLF2 ('\r' :: '\n' :: '\r' :: '\n' :: rest)
            = [] :: splitCRLF2 rest := by
          rw [splitCRLF2, if_pos ⟨rfl, rfl, rfl, rfl⟩]
        have hlast : lastSegBody ('\r' :: '\n' :: '\r' :: '\n' :: rest)
            = lastSegBody rest := by
          unfold lastSegBody
          rw [hsplit]
          exact getLastD_cons_of_ne_nil [] _ (splitCRLF2_ne_nil rest)
        obtain ⟨⟨t, ht⟩, hfree, hdec⟩ := lastSeg_props rest
        refine ⟨⟨'\r' :: '\n' :: '\r' :: '\n' :: t, ?_⟩, ?_, ?_⟩
        · rw [hlast]; simpa using ht
        · rw [hlast]; exact hfree
        · intro _
          by_cases hcr : containsCRLF2 rest = true
          · obtain ⟨u, hu⟩ := hdec hcr
            exact ⟨'\r' :: '\n' :: '\r' :: '\n' :: u, by rw [hlast]; simpa using hu⟩
          · have hr0 : containsCRLF2 rest = false := by
              simpa using hcr
            exact ⟨[], by rw [hlast, lastSeg_eq_self rest hr0]; rfl⟩
      · have hsplit : splitCRLF2 (a :: b :: c :: d :: rest)
            = consHead a (splitCRLF2 (b :: c :: d :: rest)) := by
          rw [splitCRLF2, if_neg hb]
        have hcont : containsCRLF2 (a :: b :: c :: d :: rest)
            = containsCRLF2 (b :: c :: d :: rest) := by
          rw [containsCRLF2, if_neg hb]
        by_cases hcr : containsCRLF2 (b :: c :: d :: rest) = true
        · obtain ⟨x, y, l, hxyl⟩ :
              ∃ x y l, splitCRLF2 (b :: c :: d :: rest) = x :: y :: l := by
            have hlen := splitCRLF2_len2 (b :: c :: d :: rest) hcr
            rcases hsp : splitCRLF2 (b :: c :: d :: rest) with _ | ⟨x, _ | ⟨y, l⟩⟩
            · exact absurd hsp (splitCRLF2_ne_nil _)
            · rw [hsp] at hlen; simp at hlen
            · exact ⟨x, y, l, rfl⟩
          have hlast : lastSegBody (a :: b :: c :: d :: rest)
              = lastSegBody (b :: c :: d :: rest) := by
            unfold lastSegBody
            rw [hsplit, hxyl]
            simp [consHead, List.getLast?_cons_cons]
          obtain ⟨⟨t, ht⟩, hfree, hdec⟩ := lastSeg_props (b :: c :: d :: rest)
          refine ⟨⟨a :: t, ?_⟩, ?_, ?_⟩
          · rw [hlast]
            exact congrArg (a :: ·) ht
          · rw [hlast]; exact hfree
          · intro _
            obtain ⟨u, hu⟩ := hdec hcr
            exact ⟨a :: u, by rw [hlast]; exact congrArg (a :: ·) hu⟩
        · have hs0 : containsCRLF2 (a :: b :: c :: d :: rest) = false := by
            rw [hcont]; simpa using hcr
          have h1 := lastSeg_eq_self _ hs0
          refine ⟨⟨[], by simp [h1]⟩, ?_, ?_⟩
          · rw [h1]; exact hs0
          · intro hc; rw [hs0] at hc; exact absurd hc (by simp)

/-! Handler fall-through lemmas: each failed component of the tuple match
lands in the error arm of the corresponding handler. -/

theorem handle_get_bad_id (env : Env) (req : List Char)
    (h : parseI32 (get_id req) = none) :
    handle_get_request env req
      = some ((INTERNAL_SERVER_ERROR, strL ("Invalid ID format")), env.rows) := by
  rcases hc : connectDb env with _ | u <;> simp [handle_get_request, h, hc]

theorem handle_get_no_conn (env : Env) (req : List Char) (i : Int)
    (hp : parseI32 (get_id req) = some i) (h : env.connectOk = false) :
    handle_get_request env req
      = some ((INTERNAL_SERVER_ERROR, strL ("Database connection error")), env.rows) := by
  simp [handle_get_request, hp, connectDb, h]

theorem handle_put_bad_id (env : Env) (req : List Char)
    (h : parseI32 (get_id req) = none) :
    handle_put_request env req
      = some ((INTERNAL_SERVER_ERROR, strL ("Error occurred")), env.rows) := by
  rcases hc : connectDb env with _ | u <;>
    rcases hd : get_user_request_body env req with _ | u2 <;>
      simp [handle_put_request, h, hc, hd]

theorem handle_put_bad_body (env : Env) (req : List Char)
    (h : get_user_request_body env req = none) :
    handle_put_request env req
      = some ((INTERNAL_SERVER_ERROR, strL ("Error occurred")), env.rows) := by
  rcases hp : parseI32 (get_id req) with _ | i <;>
    rcases hc : connectDb env with _ | u <;>
      simp [handle_put_request, h, hp, hc]

theorem handle_put_no_conn (env : Env) (req : List Char)
    (h : env.connectOk = false) :
    handle_put_request env req
      = some ((INTERNAL_SERVER_ERROR, strL ("Error occurred")), env.rows) := by
  rcases hp : parseI32 (get_id req) with _ | i <;>
    rcases hd : get_user_request_body env req with _ | u2 <;>
      simp [handle_put_request, connectDb, h, hp, hd]

theorem handle_delete_bad_id (env : Env) (req : List Char)
    (h : parseI32 (get_id req) = none) :
    handle_delete_request env req
      = some ((INTERNAL_SERVER_ERROR, strL ("Error occurred")), env.rows) := by
  rcases hc : connectDb env with _ | u <;> simp [handle_delete_request, h, hc]

theorem handle_delete_no_conn (env : Env) (req : List Char)
    (h : env.connectOk = false) :
    handle_delete_request env req
      = some ((INTERNAL_SERVER_ERROR, strL ("Error occurred")), env.rows) := by
  rcases hp : parseI32 (get_id req) with _ | i <;>
    simp [handle_delete_request, connectDb, h, hp]

theorem handle_post_bad_body (env : Env) (req : List Char)
    (h : get_user_request_body env req = none) :
    handle_post_request env req
      = some ((INTERNAL_SERVER_ERROR, strL ("Error occurred")), env.rows) := by
  rcases hc : connectDb env with _ | u <;> simp [handle_post_request, h, hc]

theorem handle_post_no_conn (env : Env) (req : List Char)
    (h : env.connectOk = false) :
    handle_post_request env req
      = some ((INTERNAL_SERVER_ERROR, strL ("Error occurred")), env.rows) := by
  rcases hd : get_user_request_body env req with _ | u <;>
    simp [handle_post_request, connectDb, h, hd]

/-- Claim C1 (code bug): the claim says the list-all arm is checked before the
single-resource GET arm, so `GET /users/all` reaches the list-all handler and
answers 200 with the JSON array.  In the source the `GET /users` guard comes
first, so `GET /users/all` is dispatched to the single-resource handler, whose
integer parse of the id segment `all HTTP` fails: the response is 500
"Invalid ID format", while the shadowed list-all handler would have answered
200 with the encoded array on the same environment. -/
theorem c1_get_users_all_shadowed :
    handle_client envW (strL ("GET /users/all HTTP/1.1\r\n\r\n"))
      = some ((INTERNAL_SERVER_ERROR, strL ("Invalid ID format")), envW.rows) ∧
    handle_get_all_requests envW (strL ("GET /users/all HTTP/1.1\r\n\r\n"))
      = some ((OK_RESPONSE, strL ("[ARRAY]")), envW.rows) :=
  ⟨rfl, rfl⟩

theorem get_id_http_version (m idseg v : List Char)
    (hm : '/' ∉ m) (hid : '/' ∉ idseg) :
    get_id (m ++ strL ("/users/") ++ idseg ++ strL (" HTTP/") ++ v)
      = idseg ++ strL (" HTTP") := by
  have hd1 : strL ("/users/") = '/' :: (strL ("users") ++ ['/']) := rfl
  have hd2 : strL (" HTTP/") = strL (" HTTP") ++ ['/'] := rfl
  have h1 : m ++ strL ("/users/") ++ idseg ++ strL (" HTTP/") ++ v
      = m ++ '/' :: (strL ("users") ++ '/' :: ((idseg ++ strL (" HTTP")) ++ '/' :: v)) := by
    rw [hd1, hd2]
    simp [List.append_assoc]
  have hmem : '/' ∉ idseg ++ strL (" HTTP") := by
    intro h
    rcases List.mem_append.mp h with h2 | h2
    · exact hid h2
    · exact absurd h2 (by decide)
  rw [h1]
  unfold get_id
  rw [splitChar_append '/' m _ hm,
    splitChar_append '/' (strL ("users")) _ (by decide),
    splitChar_append '/' (idseg ++ strL (" HTTP")) v hmem]
  rfl

theorem parseI32_http_version (m idseg v : List Char)
    (hm : '/' ∉ m) (hid : '/' ∉ idseg) :
    parseI32 (get_id (m ++ strL ("/users/") ++ idseg ++ strL (" HTTP/") ++ v)) = none := by
  rw [get_id_http_version m idseg v hm hid]
  have h2 : idseg ++ strL (" HTTP") = idseg ++ ' ' :: strL ("HTTP") := rfl
  rw [h2]
  exact parseI32_space idseg (strL ("HTTP"))

/-- Claim C2: a request whose first line carries an HTTP version field has
`get_id` return the id segment glued to " HTTP" (the split on "/" sees the
slash of "HTTP/1.1"), so integer parsing of the id fails and each
single-resource handler (read one, update, delete) answers 500, for every
environment — including ones whose table contains the addressed row. -/
theorem c2_http_version_breaks_id (env : Env) (m idseg v : List Char)
    (hm : '/' ∉ m) (hid : '/' ∉ idseg) :
    get_id (m ++ strL ("/users/") ++ idseg ++ strL (" HTTP/") ++ v)
      = idseg ++ strL (" HTTP") ∧
    parseI32 (get_id (m ++ strL ("/users/") ++ idseg ++ strL (" HTTP/") ++ v)) = none ∧
    handle_get_request env (m ++ strL ("/users/") ++ idseg ++ strL (" HTTP/") ++ v)
      = some ((INTERNAL_SERVER_ERROR, strL ("Invalid ID format")), env.rows) ∧
    handle_put_request env (m ++ strL ("/users/") ++ idseg ++ strL (" HTTP/") ++ v)
      = some ((INTERNAL_SERVER_ERROR, strL ("Error occurred")), env.rows) ∧
    handle_delete_request env (m ++ strL ("/users/") ++ idseg ++ strL (" HTTP/") ++ v)
      = some ((INTERNAL_SERVER_ERROR, strL ("Error occurred")), env.rows) := by
  have hp := parseI32_http_version m idseg v hm hid
  exact ⟨get_id_http_version m idseg v hm hid, hp,
    handle_get_bad_id env _ hp, handle_put_bad_id env _ hp, handle_delete_bad_id env _ hp⟩

theorem c2_http_version_breaks_id_witness :
    ('/' ∉ strL ("GET ")) ∧ ('/' ∉ strL ("5")) ∧
    (get_id (strL ("GET ") ++ strL ("/users/") ++ strL ("5") ++ strL (" HTTP/")
        ++ strL ("1.1\r\n\r\n"))
      = strL ("5") ++ strL (" HTTP") ∧
    parseI32 (get_id (strL ("GET ") ++ strL ("/users/") ++ strL ("5") ++ strL (" HTTP/")
        ++ strL ("1.1\r\n\r\n"))) = none ∧
    handle_get_request envW (strL ("GET ") ++ strL ("/users/") ++ strL ("5") ++ strL (" HTTP/")
        ++ strL ("1.1\r\n\r\n"))
      = some ((INTERNAL_SERVER_ERROR, strL ("Invalid ID format")), envW.rows) ∧
    handle_put_request envW (strL ("GET ") ++ strL ("/users/") ++ strL ("5") ++ strL (" HTTP/")
        ++ strL ("1.1\r\n\r\n"))
      = some ((INTERNAL_SERVER_ERROR, strL ("Error occurred")), envW.rows) ∧
    handle_delete_request envW (strL ("GET ") ++ strL ("/users/") ++ strL ("5") ++ strL (" HTTP/")
        ++ strL ("1.1\r\n\r\n"))
      = some ((INTERNAL_SERVER_ERROR, strL ("Error occurred")), envW.rows)) :=
  ⟨by decide, by decide,
    c2_http_version_breaks_id envW (strL ("GET ")) (strL ("5")) (strL ("1.1\r\n\r\n"))
      (by decide) (by decide)⟩

/-- Claim C9: the id used by single-resource operations is the piece at index
2 of the split of the whole request on "/": with three or more pieces it is the
third piece, and with fewer than three pieces it is the empty string. -/
theorem c9_id_is_third_segment (a b c d r : List Char)
    (ha : '/' ∉ a) (hb : '/' ∉ b) (hc : '/' ∉ c) (hr : '/' ∉ r) :
    get_id (a ++ '/' :: (b ++ '/' :: (c ++ '/' :: d))) = c ∧
    get_id (a ++ '/' :: (b ++ '/' :: c)) = c ∧
    get_id (a ++ '/' :: b) = [] ∧
    get_id r = [] := by
  refine ⟨?_, ?_, ?_, ?_⟩
  · unfold get_id
    rw [splitChar_append '/' a _ ha, splitChar_append '/' b _ hb,
      splitChar_append '/' c d hc]
    rfl
  · unfold get_id
    rw [splitChar_append '/' a _ ha, splitChar_append '/' b _ hb,
      splitChar_no_sep '/' c hc]
    rfl
  · unfold get_id
    rw [splitChar_append '/' a _ ha, splitChar_no_sep '/' b hb]
    rfl
  · unfold get_id
    rw [splitChar_no_sep '/' r hr]
    rfl

theorem c9_id_is_third_segment_witness :
    ('/' ∉ strL ("GET ")) ∧ ('/' ∉ strL ("users")) ∧ ('/' ∉ strL ("123")) ∧
    ('/' ∉ strL ("GET users")) ∧
    (get_id (strL ("GET ") ++ '/' :: (strL ("users") ++ '/' :: (strL ("123")
        ++ '/' :: strL ("tail")))) = strL ("123") ∧
    get_id (strL ("GET ") ++ '/' :: (strL ("users") ++ '/' :: strL ("123"))) = strL ("123") ∧
    get_id (strL ("GET ") ++ '/' :: strL ("users")) = [] ∧
    get_id (strL ("GET users")) = []) :=
  ⟨by decide, by decide, by decide, by decide,
    c9_id_is_third_segment (strL ("GET ")) (strL ("users")) (strL ("123")) (strL ("tail"))
      (strL ("GET users")) (by decide) (by decide) (by decide) (by decide)⟩


/-- Claim C3 (counterexample): the claim says the parsed body is the substring
after the FIRST blank line (and empty when no blank line is present); the code
takes the last "\r\n\r\n"-separated segment, so on a buffer with two blank
lines the two disagree, and on a buffer with no blank line the code yields the
whole buffer instead of the empty string. -/
theorem c3_counterexample :
    lastSegBody (strL ("X\r\n\r\nA\r\n\r\nB")) = strL ("B") ∧
    bodyAfterFirstBlankLineSpec (strL ("X\r\n\r\nA\r\n\r\nB")) = strL ("A\r\n\r\nB") ∧
    lastSegBody (strL ("X\r\n\r\nA\r\n\r\nB"))
      ≠ bodyAfterFirstBlankLineSpec (strL ("X\r\n\r\nA\r\n\r\nB")) ∧
    lastSegBody (strL ("hello")) = strL ("hello") ∧
    bodyAfterFirstBlankLineSpec (strL ("hello")) = [] ∧
    lastSegBody (strL ("hello")) ≠ bodyAfterFirstBlankLineSpec (strL ("hello")) := by
  decide

/-- Claim C3 (amended): the string handed to the JSON decoder is the LAST
"\r\n\r\n"-separated segment of the buffer — a suffix of the buffer containing
no further blank line, preceded by a blank line whenever the buffer contains
one — and it equals the entire buffer (not the empty string) when the buffer
contains no blank line. -/
theorem c3_body_is_last_segment (r : List Char) :
    (∃ t, r = t ++ lastSegBody r) ∧
    containsCRLF2 (lastSegBody r) = false ∧
    (containsCRLF2 r = true →
      ∃ t, r = t ++ '\r' :: '\n' :: '\r' :: '\n' :: lastSegBody r) ∧
    (containsCRLF2 r = false → lastSegBody r = r) := by
  obtain ⟨h1, h2, h3⟩ := lastSeg_props r
  exact ⟨h1, h2, h3, lastSeg_eq_self r⟩

theorem c3_body_is_last_segment_witness :
    containsCRLF2 (strL ("X\r\n\r\nY")) = true ∧
    (∃ t, strL ("X\r\n\r\nY")
        = t ++ '\r' :: '\n' :: '\r' :: '\n' :: lastSegBody (strL ("X\r\n\r\nY"))) :=
  ⟨by decide, (c3_body_is_last_segment (strL ("X\r\n\r\nY"))).2.2.1 (by decide)⟩

/-- Claim C4 (counterexample): with a decodable body and an open connection
but a failing INSERT execution, the create handler produces no HTTP response:
the `.unwrap()` on `execute` panics (modelled as `none`), so a statement
execution error does escape the per-connection handling scope — the panic
branch of the execute path is reachable. -/
theorem c4_counterexample :
    handle_post_request envExecFail (strL ("POST /users\r\n\r\nBODY")) = none := rfl

/-- Claim C4 (amended): every error the handler match itself inspects —
JSON-decode failure, id-parse failure and connection failure — is converted to
an HTTP response at the handler boundary; it is the execution errors of the
INSERT/UPDATE/DELETE/SELECT statements and the JSON-encoding errors, hit
through `.unwrap()`, that panic instead. -/
theorem c4_pre_execution_errors_answered (env : Env) (req : List Char) :
    (env.connectOk = false →
      (handle_post_request env req).isSome = true ∧
      (handle_get_request env req).isSome = true ∧
      (handle_get_all_requests env req).isSome = true ∧
      (handle_put_request env req).isSome = true ∧
      (handle_delete_request env req).isSome = true) ∧
    (get_user_request_body env req = none →
      (handle_post_request env req).isSome = true ∧
      (handle_put_request env req).isSome = true) ∧
    (parseI32 (get_id req) = none →
      (handle_get_request env req).isSome = true ∧
      (handle_put_request env req).isSome = true ∧
      (handle_delete_request env req).isSome = true) := by
  refine ⟨fun h => ?_, fun h => ?_, fun h => ?_⟩
  · refine ⟨?_, ?_, ?_, ?_, ?_⟩
    · rw [handle_post_no_conn env req h]; rfl
    · rcases hp : parseI32 (get_id req) with _ | i
      · rw [handle_get_bad_id env req hp]; rfl
      · rw [handle_get_no_conn env req i hp h]; rfl
    · simp [handle_get_all_requests, connectDb, h]
    · rw [handle_put_no_conn env req h]; rfl
    · rw [handle_delete_no_conn env req h]; rfl
  · exact ⟨by rw [handle_post_bad_body env req h]; rfl,
      by rw [handle_put_bad_body env req h]; rfl⟩
  · exact ⟨by rw [handle_get_bad_id env req h]; rfl,
      by rw [handle_put_bad_id env req h]; rfl,
      by rw [handle_delete_bad_id env req h]; rfl⟩

theorem c4_pre_execution_errors_answered_witness :
    envNoConn.connectOk = false ∧
    ((handle_post_request envNoConn (strL ("POST /users"))).isSome = true ∧
      (handle_get_request envNoConn (strL ("POST /users"))).isSome = true ∧
      (handle_get_all_requests envNoConn (strL ("POST /users"))).isSome = true ∧
      (handle_put_request envNoConn (strL ("POST /users"))).isSome = true ∧
      (handle_delete_request envNoConn (strL ("POST /users"))).isSome = true) :=
  ⟨rfl, (c4_pre_execution_errors_answered envNoConn (strL ("POST /users"))).1 rfl⟩

/-- Claim C5: the single-user read answers 200 with the JSON encoding of the
user built positionally from the matched row when the id parses and the query
returns exactly one row; 404 "User not found" when no row matches; 500
"Invalid ID format" (a response, not a crash) when the id is malformed; and
500 "Database connection error" when the connection fails. -/
theorem c5_get_single_user (env : Env) (req : List Char) (i : Int) (row : Row)
    (s : List Char) :
    (parseI32 (get_id req) = some i → env.connectOk = true → env.selectOneOk = true →
      env.rows.filter (fun r => decide (r.id = i)) = [row] →
      env.encodeUser { id := some row.id, name := row.name, email := row.email } = some s →
      handle_get_request env req = some ((OK_RESPONSE, s), env.rows)) ∧
    (parseI32 (get_id req) = some i → env.connectOk = true →
      env.rows.filter (fun r => decide (r.id = i)) = [] →
      handle_get_request env req = some ((NOT_FOUND, strL ("User not found")), env.rows)) ∧
    (parseI32 (get_id req) = none →
      handle_get_request env req
        = some ((INTERNAL_SERVER_ERROR, strL ("Invalid ID format")), env.rows)) ∧
    (parseI32 (get_id req) = some i → env.connectOk = false →
      handle_get_request env req
        = some ((INTERNAL_SERVER_ERROR, strL ("Database connection error")), env.rows)) := by
  refine ⟨?_, ?_, ?_, ?_⟩
  · intro hp hc hso hf he
    have hq : query_one env i = some row := by
      simp [query_one, hso, hf]
    simp [handle_get_request, hp, connectDb, hc, hq, he]
  · intro hp hc hf
    have hq : query_one env i = none := by
      simp [query_one, hf]
    simp [handle_get_request, hp, connectDb, hc, hq]
  · exact fun hp => handle_get_bad_id env req hp
  · exact fun hp hc => handle_get_no_conn env req i hp hc

theorem c5_get_single_user_witness :
    parseI32 (get_id (strL ("GET /users/5"))) = some 5 ∧
    envW.rows.filter (fun r => decide (r.id = (5 : Int)))
      = [{ id := 5, name := strL ("Ann"), email := strL ("ann@x.com") }] ∧
    handle_get_request envW (strL ("GET /users/5"))
      = some ((OK_RESPONSE, strL ("Ann")), envW.rows) :=
  ⟨by decide, by decide,
    (c5_get_single_user envW (strL ("GET /users/5")) 5
        { id := 5, name := strL ("Ann"), email := strL ("ann@x.com") } (strL ("Ann"))).1
      (by decide) rfl rfl (by decide) rfl⟩

/-- Claim C6: with a well-parsed id, an open connection and a DELETE that
executes, the response is 404 "User not found" exactly when zero rows carry
the id, and 200 "User deleted" otherwise; deleting an existing id hence
answers 200 and an immediate second delete of the same id answers 404. -/
theorem c6_delete_404_iff_zero_rows (env : Env) (req : List Char) (i : Int)
    (hp : parseI32 (get_id req) = some i) (hc : env.connectOk = true)
    (hd : env.deleteExecOk = true) :
    ((env.rows.filter (fun r => decide (r.id = i))).length = 0 ↔
      handle_delete_request env req
        = some ((NOT_FOUND, strL ("User not found")),
            env.rows.filter (fun r => decide (¬ r.id = i)))) ∧
    ((env.rows.filter (fun r => decide (r.id = i))).length ≠ 0 →
      handle_delete_request env req
        = some ((OK_RESPONSE, strL ("User deleted")),
            env.rows.filter (fun r => decide (¬ r.id = i)))) ∧
    handle_delete_request
        { env with rows := env.rows.filter (fun r => decide (¬ r.id = i)) } req
      = some ((NOT_FOUND, strL ("User not found")),
          (env.rows.filter (fun r => decide (¬ r.id = i))).filter
            (fun r => decide (¬ r.id = i))) := by
  have hnil : (env.rows.filter (fun r => decide (¬ r.id = i))).filter
      (fun r => decide (r.id = i)) = [] := by
    rw [List.filter_filter]
    apply List.filter_eq_nil_iff.mpr
    intro a _
    by_cases hid : a.id = i <;> simp [hid]
  refine ⟨?_, ?_, ?_⟩
  · by_cases hz : (env.rows.filter (fun r => decide (r.id = i))).length = 0
    · have h404 : handle_delete_request env req
          = some ((NOT_FOUND, strL ("User not found")),
              env.rows.filter (fun r => decide (¬ r.id = i))) := by
        simp [handle_delete_request, hp, connectDb, hc, hd, hz]
      exact ⟨fun _ => h404, fun _ => hz⟩
    · have h200 : handle_delete_request env req
          = some ((OK_RESPONSE, strL ("User deleted")),
              env.rows.filter (fun r => decide (¬ r.id = i))) := by
        simp [handle_delete_request, hp, connectDb, hc, hd, hz]
      refine ⟨fun h0 => absurd h0 hz, fun h404 => ?_⟩
      rw [h200] at h404
      have hstat : OK_RESPONSE = NOT_FOUND :=
        congrArg (fun p => p.1.1) (Option.some.inj h404)
      exact absurd hstat (by decide)
  · intro hz
    simp [handle_delete_request, hp, connectDb, hc, hd, hz]
  · simp [handle_delete_request, hp, connectDb, hc, hd, hnil]

theorem c6_delete_404_iff_zero_rows_witness :
    parseI32 (get_id (strL ("DELETE /users/5"))) = some 5 ∧
    (handle_delete_request envW (strL ("DELETE /users/5"))
      = some ((OK_RESPONSE, strL ("User deleted")),
          envW.rows.filter (fun r => decide (¬ r.id = (5 : Int)))) ∧
    handle_delete_request
        { envW with rows := envW.rows.filter (fun r => decide (¬ r.id = (5 : Int))) }
        (strL ("DELETE /users/5"))
      = some ((NOT_FOUND, strL ("User not found")),
          (envW.rows.filter (fun r => decide (¬ r.id = (5 : Int)))).filter
            (fun r => decide (¬ r.id = (5 : Int))))) :=
  ⟨by decide,
    (c6_delete_404_iff_zero_rows envW (strL ("DELETE /users/5")) 5
        (by decide) rfl rfl).2.1 (by decide),
    (c6_delete_404_iff_zero_rows envW (strL ("DELETE /users/5")) 5
        (by decide) rfl rfl).2.2⟩

/-- Claim C7: with a well-parsed id, a decodable body, an open connection and
an UPDATE that executes, the update handler answers 200 "User updated" — and
when zero rows carry the id the table is unchanged yet the answer is still
200 "User updated". -/
theorem c7_update_200_even_zero_rows (env : Env) (req : List Char) (i : Int)
    (user : User)
    (hp : parseI32 (get_id req) = some i)
    (hb : get_user_request_body env req = some user)
    (hc : env.connectOk = true) (hu : env.updateExecOk = true) :
    handle_put_request env req
      = some ((OK_RESPONSE, strL ("User updated")),
          env.rows.map (fun r =>
            if r.id = i then { id := r.id, name := user.name, email := user.email }
            else r)) ∧
    (env.rows.filter (fun r => decide (r.id = i)) = [] →
      handle_put_request env req
        = some ((OK_RESPONSE, strL ("User updated")), env.rows)) := by
  have h1 : handle_put_request env req
      = some ((OK_RESPONSE, strL ("User updated")),
          env.rows.map (fun r =>
            if r.id = i then { id := r.id, name := user.name, email := user.email }
            else r)) := by
    simp [handle_put_request, hp, hb, connectDb, hc, hu]
  refine ⟨h1, fun hz => ?_⟩
  have hmap : env.rows.map (fun r =>
      if r.id = i then { id := r.id, name := user.name, email := user.email }
      else r) = env.rows := by
    have hne : ∀ a ∈ env.rows, ¬ a.id = i := by
      intro a ha
      have := List.filter_eq_nil_iff.mp hz a ha
      simpa using this
    calc env.rows.map (fun r =>
          if r.id = i then { id := r.id, name := user.name, email := user.email }
          else r)
        = env.rows.map id := by
          apply List.map_congr_left
          intro a ha
          simp [hne a ha]
      _ = env.rows := List.map_id env.rows
  rw [h1, hmap]

theorem c7_update_200_even_zero_rows_witness :
    parseI32 (get_id (strL ("PUT /users/9"))) = some 9 ∧
    envDecode.rows.filter (fun r => decide (r.id = (9 : Int))) = [] ∧
    handle_put_request envDecode (strL ("PUT /users/9"))
      = some ((OK_RESPONSE, strL ("User updated")), envDecode.rows) :=
  ⟨by decide, by decide,
    (c7_update_200_even_zero_rows envDecode (strL ("PUT /users/9")) 9
        { id := none, name := strL ("Bob"), email := strL ("bob@x.com") }
        (by decide) rfl rfl rfl).2 (by decide)⟩

/-- Claim C8: when the body fails JSON deserialization into a `User`, both the
create and the update handler answer 500 "Error occurred" — an HTTP response,
not a crash. -/
theorem c8_bad_json_500 (env : Env) (req : List Char)
    (h : get_user_request_body env req = none) :
    handle_post_request env req
      = some ((INTERNAL_SERVER_ERROR, strL ("Error occurred")), env.rows) ∧
    handle_put_request env req
      = some ((INTERNAL_SERVER_ERROR, strL ("Error occurred")), env.rows) :=
  ⟨handle_post_bad_body env req h, handle_put_bad_body env req h⟩

theorem c8_bad_json_500_witness :
    get_user_request_body envW (strL ("POST /users\r\n\r\nnot-json")) = none ∧
    (handle_post_request envW (strL ("POST /users\r\n\r\nnot-json"))
      = some ((INTERNAL_SERVER_ERROR, strL ("Error occurred")), envW.rows) ∧
    handle_put_request envW (strL ("POST /users\r\n\r\nnot-json"))
      = some ((INTERNAL_SERVER_ERROR, strL ("Error occurred")), envW.rows)) :=
  ⟨rfl, c8_bad_json_500 envW (strL ("POST /users\r\n\r\nnot-json")) rfl⟩

/-- Claim C10: when creation, update or deletion answers 500 because the id
fails integer parsing, the body fails JSON deserialization or the connection
cannot be opened, no SQL statement runs and the handler leaves the stored
table unchanged: the returned table equals the table it started from. -/
theorem c10_early_errors_leave_table_unchanged (env : Env) (req : List Char) :
    ((get_user_request_body env req = none ∨ env.connectOk = false) →
      handle_post_request env req
        = some ((INTERNAL_SERVER_ERROR, strL ("Error occurred")), env.rows)) ∧
    ((parseI32 (get_id req) = none ∨ get_user_request_body env req = none ∨
        env.connectOk = false) →
      handle_put_request env req
        = some ((INTERNAL_SERVER_ERROR, strL ("Error occurred")), env.rows)) ∧
    ((parseI32 (get_id req) = none ∨ env.connectOk = false) →
      handle_delete_request env req
        = some ((INTERNAL_SERVER_ERROR, strL ("Error occurred")), env.rows)) := by
  refine ⟨fun h => ?_, fun h => ?_, fun h => ?_⟩
  · rcases h with h | h
    · exact handle_post_bad_body env req h
    · exact handle_post_no_conn env req h
  · rcases h with h | h | h
    · exact handle_put_bad_id env req h
    · exact handle_put_bad_body env req h
    · exact handle_put_no_conn env req h
  · rcases h with h | h
    · exact handle_delete_bad_id env req h
    · exact handle_delete_no_conn env req h

theorem c10_early_errors_leave_table_unchanged_witness :
    get_user_request_body envW (strL ("POST /users\r\n\r\nBODY")) = none ∧
    handle_post_request envW (strL ("POST /users\r\n\r\nBODY"))
      = some ((INTERNAL_SERVER_ERROR, strL ("Error occurred")), envW.rows) :=
  ⟨rfl, (c10_early_errors_leave_table_unchanged envW
      (strL ("POST /users\r\n\r\nBODY"))).1 (Or.inl rfl)⟩

end RustCrud
